import Mathlib

/-!
Verification of the retina repository's offline persistence and detection
flow against its natural-language specification.

The embedding below translates the consumer components found under src/
(cnn-detection-interface.tsx, the DetectionFlow component, the offline page)
into Lean definitions.  The offline-storage subsystem itself (LocalStore,
SyncCoordinator, ConnectivityMonitor, the facade) is imported by the
sources as a library whose code is not part of the source tree; where a
claim depends on it, the relevant operation is modelled from the spec and
marked as such in its doc comment.
-/

/-- Disease categories handled by the detection components
(src/src/components/cnn-detection-interface.tsx, CNNDetectionProps). -/
inductive DiseaseType
  | glaucoma
  | retinopathy
  | cataract
deriving DecidableEq, Repr

/-- The detection record built and passed to saveDetectionResult by
startAnalysis (src/src/components/cnn-detection-interface.tsx lines
164-173).  The result payload and confidence fields are opaque to every
claim and are omitted; all other fields are kept.  The synced field is
set from the component's current isOnline state, exactly as in the
source (line 170: synced: isOnline). -/
structure SavedDetectionRecord where
  id : String
  imageId : String
  timestamp : String
  synced : Bool
  diseaseType : DiseaseType
deriving DecidableEq, Repr

/-- The record constructed by startAnalysis for the saveDetectionResult
call: synced is the current isOnline value at write time
(src/src/components/cnn-detection-interface.tsx line 170). -/
def startAnalysisRecord (isOnline : Bool) (id imageId timestamp : String)
    (d : DiseaseType) : SavedDetectionRecord :=
  { id := id, imageId := imageId, timestamp := timestamp,
    synced := isOnline, diseaseType := d }

/-- Progress tick from the setInterval callback in startAnalysis
(src/src/components/cnn-detection-interface.tsx lines 146-154):
once the previous value reaches 90 the interval is cleared and 90 is
returned, otherwise the value advances by 10. -/
def cnnProgressTick (prev : Nat) : Nat :=
  if prev ≥ 90 then 90 else prev + 10

/-- Displayed progress in startAnalysis after n interval ticks, starting
from setAnalysisProgress(0) (line 142). -/
def cnnProgressAt (n : Nat) : Nat :=
  cnnProgressTick^[n] 0

/-- Outcome of the model.predict call awaited by startAnalysis
(src/src/components/cnn-detection-interface.tsx line 157): either the
promise rejects (caught at line 177) or it resolves with a prediction. -/
inductive PredictOutcome (α : Type)
  | failure
  | success (result : α)
deriving DecidableEq, Repr

/-- Whether a predict outcome is the successful one. -/
def PredictOutcome.isSuccess {α : Type} : PredictOutcome α → Bool
  | .success _ => true
  | .failure => false

/-- Component state produced by one run of startAnalysis
(src/src/components/cnn-detection-interface.tsx lines 138-182). -/
structure CnnRunState (α : Type) where
  isAnalyzing : Bool
  analysisProgress : Nat
  predictionResult : Option α
  savedRecord : Option SavedDetectionRecord
deriving Repr

/-- One run of startAnalysis (src/src/components/cnn-detection-interface.tsx
lines 138-182), given the component's isOnline state, the identifiers
generated for the record, the outcome of model.predict, and the number of
interval ticks that fired before the await settled.  On success the
interval is cleared, progress is set to 100, the prediction is stored and
the record is saved with synced := isOnline; on failure the catch block
only logs, so no result is stored, no record is saved, and progress stays
at the last interval value; the finally block clears isAnalyzing. -/
def startAnalysis {α : Type} (isOnline : Bool) (id imageId timestamp : String)
    (d : DiseaseType) (outcome : PredictOutcome α) (ticks : Nat) : CnnRunState α :=
  match outcome with
  | .success r =>
      { isAnalyzing := false, analysisProgress := 100,
        predictionResult := some r,
        savedRecord := some (startAnalysisRecord isOnline id imageId timestamp d) }
  | .failure =>
      { isAnalyzing := false, analysisProgress := cnnProgressAt ticks,
        predictionResult := none, savedRecord := none }

/-- The online event handler from the CNNDetectionInterface effect
(src/src/components/cnn-detection-interface.tsx line 63): it sets
isOnline to true unconditionally. -/
def handleOnline (_isOnline : Bool) : Bool := true

/-- The offline event handler from the CNNDetectionInterface effect
(src/src/components/cnn-detection-interface.tsx line 64): it sets
isOnline to false unconditionally. -/
def handleOffline (_isOnline : Bool) : Bool := false

/-- checkOnlineStatus (src/src/components/cnn-detection-interface.tsx
lines 118-120): the published online state is exactly the
platform-reported navigator.onLine flag. -/
def checkOnlineStatus (navigatorOnLine : Bool) : Bool := navigatorOnLine

/-- State of the offline system as observed through the facade: the
component's connectivity flag together with the keyed store, abstracted
to the synced flag it holds per record id (none when no record with that
id was persisted).  The connectivity flag and the save path come from
src/src/components/cnn-detection-interface.tsx; the sync transitions are
modelled from the spec (section 4.4). -/
structure SysState where
  online : Bool
  store : String → Option Bool

/-- Events acting on the offline system.  connChange is the pair of
platform event handlers (src lines 62-76); saveDetection is the
startAnalysis save path (src lines 164-173).  syncAck and syncFail are
modelled from the spec: SyncCoordinator is missing from the source tree,
and spec section 4.4 step 4 says a push flips synced to true on remote
acknowledgment and leaves the item unchanged on timeout or transient
failure. -/
inductive SysEvent
  | connChange (flag : Bool)
  | saveDetection (id : String)
  | syncAck (id : String)
  | syncFail (id : String)
deriving DecidableEq, Repr

/-- Whether an event is a remote acknowledgment handled by the sync path. -/
def SysEvent.isSyncAck : SysEvent → Bool
  | .syncAck _ => true
  | _ => false

/-- One step of the offline system.  A save persists a record whose
synced flag is the current online flag, exactly as startAnalysis does
(src/src/components/cnn-detection-interface.tsx line 170), overwriting
any previous record with the same id (keyed last-writer-wins store,
spec section 4.1).  syncAck flips the synced flag of that id to true if
a record with that id exists; syncFail changes nothing (both modelled
from spec section 4.4 step 4). -/
def sysStep (s : SysState) (e : SysEvent) : SysState :=
  match e with
  | .connChange flag => { s with online := flag }
  | .saveDetection i =>
      { s with store := fun j => if j = i then some s.online else s.store j }
  | .syncAck i =>
      { s with store := fun j =>
          if j = i then (s.store j).map (fun _ => true) else s.store j }
  | .syncFail _ => s

/-- Run of the offline system from the component's initial state: the
isOnline flag starts as true (useState(true), src line 49) and no record
is stored. -/
def sysRun (evs : List SysEvent) : SysState :=
  evs.foldl sysStep { online := true, store := fun _ => none }

/-- A record held by LocalStore: a type tag, an id and a serialized
payload.  Modelled from the spec: LocalStore is not part of the source
tree; spec section 4.1 describes durable keyed typed storage whose key
is the pair of type tag and id. -/
structure StoredRecord where
  typeTag : String
  id : String
  value : String
deriving DecidableEq, Repr

/-- Size charged against the quota for one record. -/
def recordSize (r : StoredRecord) : Nat := r.value.length

/-- Modelled from the spec: LocalStore (section 4.1), a keyed store over
a storage medium with a fixed quota budget. -/
structure LocalStore where
  records : List StoredRecord
  quota : Nat
deriving DecidableEq, Repr

/-- The storage error of spec section 7: the medium rejects a write that
does not fit the remaining budget. -/
inductive StorageError
  | quotaExceeded
deriving DecidableEq, Repr

/-- getById from spec section 4.1: returns the entity for a type and id
or a not-found signal, never throwing for absence. -/
def LocalStore.getById (s : LocalStore) (t i : String) : Option StoredRecord :=
  s.records.find? (fun r => r.typeTag == t && r.id == i)

/-- Space the store would use after replacing the key of r with r. -/
def LocalStore.putCost (s : LocalStore) (r : StoredRecord) : Nat :=
  (((s.records.filter (fun q => !(q.typeTag == r.typeTag && q.id == r.id))).map
      recordSize).sum) + recordSize r

/-- Modelled from the spec: put (section 4.1) is an atomic per-key
write; it fails with QuotaExceeded when the medium rejects the write
(the new contents would not fit the budget), and on failure the store is
returned unchanged, so no partial record is visible.  The error is
returned directly to the caller; there is no retry. -/
def LocalStore.put (s : LocalStore) (r : StoredRecord) :
    Option StorageError × LocalStore :=
  if s.putCost r ≤ s.quota then
    (none, { s with records :=
      (s.records.filter (fun q => !(q.typeTag == r.typeTag && q.id == r.id))) ++ [r] })
  else
    (some .quotaExceeded, s)

/-- Modelled from the spec: delete (section 4.1) removes the record with
the given type and id; deleting an absent key is a no-op, not an error. -/
def LocalStore.delete (s : LocalStore) (t i : String) : LocalStore :=
  { s with records := s.records.filter (fun r => !(r.typeTag == t && r.id == i)) }

/-- Modelled from the spec: the SyncCoordinator state machine of
section 4.4, Idle to Syncing and back to Idle. -/
inductive SyncPhase
  | idle
  | syncing
deriving DecidableEq, Repr

/-- Modelled from the spec: SyncCoordinator bookkeeping.  inFlight
counts sync passes currently running; queued counts passes queued to run
after the current one (section 4.4 says a request during Syncing is
never queued, so the model records such a counter to show it stays 0). -/
structure CoordState where
  phase : SyncPhase
  inFlight : Nat
  queued : Nat
deriving DecidableEq, Repr

/-- Triggers of the coordinator: a request to start a pass (an Online
transition or a forceSync call) and the completion of the running pass. -/
inductive CoordEvent
  | trigger
  | finishPass
deriving DecidableEq, Repr

/-- Modelled from the spec: trigger handling of section 4.4.  A request
while a pass is already Syncing is coalesced into a no-op and never
queued; a request while Idle starts one pass; completion returns the
coordinator to Idle. -/
def coordStep (s : CoordState) (e : CoordEvent) : CoordState :=
  match e with
  | .trigger =>
      match s.phase with
      | .syncing => s
      | .idle => { phase := .syncing, inFlight := s.inFlight + 1, queued := s.queued }
  | .finishPass =>
      match s.phase with
      | .syncing => { phase := .idle, inFlight := s.inFlight - 1, queued := s.queued }
      | .idle => s

/-- The coordinator starts Idle with no pass running and nothing queued. -/
def coordInit : CoordState :=
  { phase := .idle, inFlight := 0, queued := 0 }

/-- Coordinator state after a sequence of triggers and completions. -/
def coordRun (evs : List CoordEvent) : CoordState :=
  evs.foldl coordStep coordInit

/-- Modelled from the spec: the retry delay of section 4.4 step 4,
exponential backoff from a base doubling with each attempt, plus a
random jitter drawn per attempt, capped at the configured cap. -/
def backoffDelay (base cap : Nat) (jitter : Nat → Nat) (attempt : Nat) : Nat :=
  min (base * 2 ^ attempt + jitter attempt) cap

/-- The four steps of the DetectionFlow wizard
(src/unnamed/part_000 line 22). -/
inductive DetectionStep
  | instructions
  | capture
  | analyzing
  | results
deriving DecidableEq, Repr

/-- Progress tick from the setInterval callback in DetectionFlow's
analyzeImage (src/unnamed/part_000 lines 143-151): once the previous
value reaches 90 the interval is cleared and 90 is returned, otherwise
the value advances by 10. -/
def flowProgressTick (prev : Nat) : Nat :=
  if prev ≥ 90 then 90 else prev + 10

/-- Displayed progress in analyzeImage after n interval ticks, starting
from setAnalysisProgress(0) (src/unnamed/part_000 line 140). -/
def flowProgressAt (n : Nat) : Nat :=
  flowProgressTick^[n] 0

/-- Outcome of the analysis request issued by analyzeImage
(src/unnamed/part_000 lines 153-173): the fetch promise rejects, the
response arrives with ok false (the code then throws), response.json()
rejects, or a result is received and parsed. -/
inductive AnalysisOutcome (α : Type)
  | fetchReject
  | responseNotOk
  | parseReject
  | success (result : α)
deriving DecidableEq, Repr

/-- Whether an analysis outcome lands in the catch block of analyzeImage. -/
def AnalysisOutcome.isFailure {α : Type} : AnalysisOutcome α → Bool
  | .success _ => false
  | _ => true

/-- Component state of DetectionFlow (src/unnamed/part_000 lines 74-79)
restricted to the fields analyzeImage touches or the claims read. -/
structure FlowState (α : Type) where
  currentStep : DetectionStep
  isAnalyzing : Bool
  analysisProgress : Nat
  detectionResult : Option α
  error : Option String
deriving Repr

/-- One run of analyzeImage (src/unnamed/part_000 lines 137-181), given
the outcome of the request and the number of interval ticks that fired
before the await settled.  Entry sets isAnalyzing true, clears the error
and resets progress to 0; the interval then advances progress.  On a
received and parsed result the code stores it, sets progress to 100 and
moves to the results step; on any failure the catch block sets the error
message and moves back to the capture step, leaving detectionResult
untouched; the finally block clears isAnalyzing and the interval. -/
def analyzeImage {α : Type} (s : FlowState α) (outcome : AnalysisOutcome α)
    (ticks : Nat) : FlowState α :=
  let s1 : FlowState α :=
    { s with isAnalyzing := true, error := none,
             analysisProgress := flowProgressAt ticks }
  match outcome with
  | .success r =>
      { s1 with detectionResult := some r, analysisProgress := 100,
                currentStep := .results, isAnalyzing := false }
  | _ =>
      { s1 with error := some "Analysis failed. Please try again.",
                currentStep := .capture, isAnalyzing := false }

/-- A concrete stored record used to exercise the LocalStore model. -/
def demoRecord : StoredRecord :=
  { typeTag := "det", id := "d1", value := "abc" }

/-- A concrete record too large for the demo store's remaining budget. -/
def bigRecord : StoredRecord :=
  { typeTag := "det", id := "d2", value := "xyzzy" }

/-- A concrete store with quota 4 already holding demoRecord. -/
def demoStore : LocalStore :=
  { records := [demoRecord], quota := 4 }

/-- C1: the claim says every save persists the entity with synced =
false regardless of connectivity.  The code evaluated at the failing
input: a startAnalysis run performed while the component's isOnline flag
is true persists its detection record with synced = true
(src/src/components/cnn-detection-interface.tsx line 170). -/
theorem startAnalysis_online_persists_synced_true :
    ((startAnalysis (α := Unit) true "detection_1" "image_1" "t0"
        DiseaseType.glaucoma (PredictOutcome.success ()) 0).savedRecord.map
      SavedDetectionRecord.synced) = some true := rfl

/-- C2: the claim says only SyncCoordinator ever sets synced to true and
only after a remote acknowledgment.  The code evaluated at the failing
input: in a run whose trace contains no sync acknowledgment at all, the
consumer save performed while online already stores synced = true for
its record. -/
theorem save_while_online_synced_without_ack :
    (sysRun [SysEvent.connChange true, SysEvent.saveDetection "d1"]).store "d1"
        = some true
      ∧ ([SysEvent.connChange true, SysEvent.saveDetection "d1"].all
          (fun e => !e.isSyncAck)) = true := by
  constructor
  · simp [sysRun, sysStep]
  · rfl

/-- C4 counterexample: the claim says Online is published only when the
platform flag is true and an active probe succeeds.  The published
state is checkOnlineStatus, which depends on the platform flag alone:
at the concrete input navigator.onLine = true with the probe failing
(probeOk = false), the code publishes Online, so the claimed implication
is false. -/
theorem online_published_without_probe :
    ¬ (∀ (navOnLine probeOk : Bool), checkOnlineStatus navOnLine = true →
        navOnLine = true ∧ probeOk = true) := by
  intro h
  exact absurd (h true false rfl).2 (by decide)

/-- C4 amended: the observed connectivity handling derives the online
state solely from the platform flag: checkOnlineStatus publishes
navigator.onLine directly, and the online and offline event handlers
publish the new state immediately and unconditionally, with no active
probe and no hysteresis window. -/
theorem connectivity_from_platform_flag_only :
    ∀ (navOnLine prev : Bool),
      checkOnlineStatus navOnLine = navOnLine ∧
      handleOnline prev = true ∧ handleOffline prev = false := by
  intro navOnLine prev
  exact ⟨rfl, rfl, rfl⟩

/-- Helper: the coordinator invariant — at most one pass in flight,
nothing ever queued, and Syncing exactly when one pass runs — is
preserved by every coordinator step. -/
theorem coordStep_preserves_inv (s : CoordState) (e : CoordEvent)
    (h : s.inFlight ≤ 1 ∧ s.queued = 0 ∧
      (s.phase = SyncPhase.syncing ↔ s.inFlight = 1)) :
    (coordStep s e).inFlight ≤ 1 ∧ (coordStep s e).queued = 0 ∧
      ((coordStep s e).phase = SyncPhase.syncing ↔ (coordStep s e).inFlight = 1) := by
  obtain ⟨ph, f, q⟩ := s
  obtain ⟨h1, h2, h3⟩ := h
  cases e <;> cases ph <;> simp_all [coordStep]
  all_goals omega

/-- Helper: the coordinator invariant holds along every run from the
initial Idle state. -/
theorem coordRun_inv (evs : List CoordEvent) :
    (coordRun evs).inFlight ≤ 1 ∧ (coordRun evs).queued = 0 ∧
      ((coordRun evs).phase = SyncPhase.syncing ↔ (coordRun evs).inFlight = 1) := by
  have main : ∀ (l : List CoordEvent) (s : CoordState),
      (s.inFlight ≤ 1 ∧ s.queued = 0 ∧
        (s.phase = SyncPhase.syncing ↔ s.inFlight = 1)) →
      ((l.foldl coordStep s).inFlight ≤ 1 ∧ (l.foldl coordStep s).queued = 0 ∧
        ((l.foldl coordStep s).phase = SyncPhase.syncing ↔
          (l.foldl coordStep s).inFlight = 1)) := by
    intro l
    induction l with
    | nil => intro s hs; exact hs
    | cons e l ih =>
        intro s hs
        exact ih (coordStep s e) (coordStep_preserves_inv s e hs)
  exact main evs coordInit ⟨by decide, rfl, by simp [coordInit]⟩

/-- C5: in every reachable coordinator state at most one sync pass is in
flight and no request is ever queued as an additional pending pass, and
a request to start a pass arriving while one is already Syncing is
coalesced into a no-op. -/
theorem coordinator_at_most_one_pass :
    ∀ (evs : List CoordEvent),
      (coordRun evs).inFlight ≤ 1 ∧ (coordRun evs).queued = 0 ∧
      ((coordRun evs).phase = SyncPhase.syncing →
        coordStep (coordRun evs) CoordEvent.trigger = coordRun evs) := by
  intro evs
  have h := coordRun_inv evs
  refine ⟨h.1, h.2.1, ?_⟩
  intro hp
  simp only [coordStep]
  split
  · rfl
  · rename_i heq
    rw [hp] at heq
    exact SyncPhase.noConfusion heq

/-- Witness for C5 at the concrete run consisting of a single trigger:
the resulting state has at most one pass in flight, and a second trigger
arriving while it is Syncing leaves the state unchanged. -/
theorem coordinator_at_most_one_pass_witness :
    (coordRun [CoordEvent.trigger]).inFlight ≤ 1 ∧
    coordStep (coordRun [CoordEvent.trigger]) CoordEvent.trigger =
      coordRun [CoordEvent.trigger] := by
  refine ⟨(coordinator_at_most_one_pass [CoordEvent.trigger]).1,
    (coordinator_at_most_one_pass [CoordEvent.trigger]).2.2 (by decide)⟩

/-- Helper: an event that is neither a sync acknowledgment for an id nor
a save of that id leaves the stored synced flag of that id unchanged. -/
theorem sysStep_preserves_other (s : SysState) (e : SysEvent) (i : String)
    (h1 : e ≠ SysEvent.syncAck i) (h2 : e ≠ SysEvent.saveDetection i) :
    (sysStep s e).store i = s.store i := by
  cases e with
  | connChange flag => rfl
  | syncFail j => rfl
  | saveDetection j =>
      have hij : i ≠ j := by
        intro hcontra
        exact h2 (by rw [hcontra])
      simp [sysStep, hij]
  | syncAck j =>
      have hij : i ≠ j := by
        intro hcontra
        exact h1 (by rw [hcontra])
      simp [sysStep, hij]

/-- Helper: along any run whose events contain no sync acknowledgment
for an id and no further save of that id, a stored synced flag of false
for that id is preserved. -/
theorem sysRun_preserves_unsynced (evs : List SysEvent) :
    ∀ (s : SysState) (i : String), s.store i = some false →
      (∀ e ∈ evs, e ≠ SysEvent.syncAck i ∧ e ≠ SysEvent.saveDetection i) →
      (evs.foldl sysStep s).store i = some false := by
  induction evs with
  | nil => intro s i h _; exact h
  | cons e l ih =>
      intro s i h hall
      have he := hall e (List.mem_cons_self e l)
      have hpres := sysStep_preserves_other s e i he.1 he.2
      exact ih (sysStep s e) i (by rw [hpres]; exact h)
        (fun x hx => hall x (List.mem_cons_of_mem e hx))

/-- C3: a detection record saved while the system is Offline is stored
with synced = false, and its synced flag remains false across every
subsequent event until a sync acknowledgment for that id arrives (the
trace hypothesis also excludes a later re-save of the same id, since
ids are globally unique per spec section 3). -/
theorem offline_save_stays_unsynced_until_ack :
    ∀ (s : SysState) (i : String) (evs : List SysEvent),
      s.online = false →
      (∀ e ∈ evs, e ≠ SysEvent.syncAck i ∧ e ≠ SysEvent.saveDetection i) →
      (evs.foldl sysStep (sysStep s (SysEvent.saveDetection i))).store i
        = some false := by
  intro s i evs honline hall
  have hinit : (sysStep s (SysEvent.saveDetection i)).store i = some false := by
    simp [sysStep, honline]
  exact sysRun_preserves_unsynced evs (sysStep s (SysEvent.saveDetection i)) i
    hinit hall

/-- Witness for C3 at a concrete offline state and trace: the record d1
saved while offline still reads synced = false after a connectivity
change, a transient sync failure for d1 and a save of a different id. -/
theorem offline_save_stays_unsynced_until_ack_witness :
    ([SysEvent.connChange true, SysEvent.syncFail "d1",
        SysEvent.saveDetection "d2"].foldl sysStep
      (sysStep { online := false, store := fun _ => none }
        (SysEvent.saveDetection "d1"))).store "d1" = some false := by
  exact offline_save_stays_unsynced_until_ack
    { online := false, store := fun _ => none } "d1"
    [SysEvent.connChange true, SysEvent.syncFail "d1", SysEvent.saveDetection "d2"]
    rfl (by decide)

/-- C6: when put fails with QuotaExceeded the store is left unchanged,
so a subsequent getById for any key returns exactly what it returned
before the failed put — the prior value, or not-found if the key was
absent, never a partial record; and the failure is exactly the
synchronous outcome of the single quota check, with no retry altering
it. -/
theorem put_quota_failure_preserves_store :
    ∀ (s : LocalStore) (r : StoredRecord),
      ((s.put r).1 = some StorageError.quotaExceeded →
        ∀ (t i : String), ((s.put r).2).getById t i = s.getById t i) ∧
      ((s.put r).1 = some StorageError.quotaExceeded ↔
        ¬ (s.putCost r ≤ s.quota)) := by
  intro s r
  unfold LocalStore.put
  split
  · rename_i hfits
    constructor
    · intro hcontra
      exact absurd hcontra (by simp)
    · simp [hfits]
  · rename_i hrejects
    constructor
    · intro _ t i
      rfl
    · simp [hrejects]

/-- Witness for C6 at a concrete store: with quota 4 already holding a
three-byte record, putting a five-byte record fails with QuotaExceeded
and getById still returns the prior record for the existing key. -/
theorem put_quota_failure_preserves_store_witness :
    (demoStore.put bigRecord).1 = some StorageError.quotaExceeded ∧
    ((demoStore.put bigRecord).2).getById "det" "d1"
      = demoStore.getById "det" "d1" := by
  have h := put_quota_failure_preserves_store demoStore bigRecord
  have hfail := h.2.mpr (by decide)
  exact ⟨hfail, h.1 hfail "det" "d1"⟩

/-- C7: with jitter bounded by the base, the per-attempt retry delay is
non-decreasing across successive attempts and never exceeds the
configured cap, and a transient push failure leaves the system state —
in particular the item's synced = false flag — unchanged. -/
theorem backoff_monotone_bounded :
    ∀ (base cap : Nat) (jitter : Nat → Nat),
      (∀ n, jitter n ≤ base) →
      (∀ n, backoffDelay base cap jitter n ≤ backoffDelay base cap jitter (n + 1)) ∧
      (∀ n, backoffDelay base cap jitter n ≤ cap) ∧
      (∀ (s : SysState) (i : String), sysStep s (SysEvent.syncFail i) = s) := by
  intro base cap jitter hj
  refine ⟨?_, ?_, fun s i => rfl⟩
  · intro n
    have hp : (1 : Nat) ≤ 2 ^ n := Nat.one_le_pow n 2 (by norm_num)
    have h2 : base * 2 ^ (n + 1) = base * 2 ^ n + base * 2 ^ n := by ring
    have h3 : base * 1 ≤ base * 2 ^ n := Nat.mul_le_mul (le_refl base) hp
    have hjn := hj n
    have key : base * 2 ^ n + jitter n ≤ base * 2 ^ (n + 1) + jitter (n + 1) := by
      omega
    exact min_le_min key (le_refl cap)
  · intro n
    exact min_le_right _ _

/-- Witness for C7 with base 1, cap 60 and zero jitter: the delay grows
from attempt 2 to attempt 3 and the delay of attempt 5 stays within the
cap. -/
theorem backoff_monotone_bounded_witness :
    backoffDelay 1 60 (fun _ => 0) 2 ≤ backoffDelay 1 60 (fun _ => 0) 3 ∧
    backoffDelay 1 60 (fun _ => 0) 5 ≤ 60 := by
  have h := backoff_monotone_bounded 1 60 (fun _ => 0) (fun _ => Nat.zero_le 1)
  exact ⟨h.1 2, h.2.1 5⟩

/-- C8: delete is idempotent — deleting the same key twice leaves the
store exactly as deleting it once — and deleting a key that is absent
(getById returns not-found) is a no-op returning the store unchanged,
with no error value in the signature at all. -/
theorem delete_idempotent_absent_noop :
    ∀ (s : LocalStore) (t i : String),
      (s.delete t i).delete t i = s.delete t i ∧
      (s.getById t i = none → s.delete t i = s) := by
  intro s t i
  constructor
  · simp [LocalStore.delete, List.filter_filter]
  · intro h
    have hall : ∀ r ∈ s.records, (r.typeTag == t && r.id == i) = false := by
      intro r hr
      have := List.find?_eq_none.mp h r hr
      simpa using this
    obtain ⟨recs, q⟩ := s
    simp only [LocalStore.delete]
    congr 1
    apply List.filter_eq_self.mpr
    intro a ha
    simp [hall a ha]

/-- Witness for C8 at a concrete store holding one record: deleting an
absent key twice equals deleting it once, and deleting the absent key
returns the store unchanged. -/
theorem delete_idempotent_absent_noop_witness :
    ((demoStore.delete "det" "d2").delete "det" "d2"
      = demoStore.delete "det" "d2") ∧
    demoStore.delete "det" "d2" = demoStore := by
  have h := delete_idempotent_absent_noop demoStore "det" "d2"
  exact ⟨h.1, h.2 (by decide)⟩

/-- Helper: closed form of the DetectionFlow progress sequence — after n
ticks the displayed progress is 10 n capped at 90. -/
theorem flowProgressAt_eq (n : Nat) : flowProgressAt n = min (10 * n) 90 := by
  induction n with
  | zero => rfl
  | succ k ih =>
      have h : flowProgressAt (k + 1) = flowProgressTick (flowProgressAt k) :=
        Function.iterate_succ_apply' flowProgressTick k 0
      rw [h, ih]
      unfold flowProgressTick
      split
      · omega
      · omega

/-- Helper: closed form of the CNN interface progress sequence — after n
ticks the displayed progress is 10 n capped at 90. -/
theorem cnnProgressAt_eq (n : Nat) : cnnProgressAt n = min (10 * n) 90 := by
  induction n with
  | zero => rfl
  | succ k ih =>
      have h : cnnProgressAt (k + 1) = cnnProgressTick (cnnProgressAt k) :=
        Function.iterate_succ_apply' cnnProgressTick k 0
      rw [h, ih]
      unfold cnnProgressTick
      split
      · omega
      · omega

/-- C9: whenever the analysis request of DetectionFlow's analyzeImage
fails — the fetch rejects, the response is not ok, or parsing rejects —
the component sets the error message "Analysis failed. Please try
again.", moves currentStep back to capture and leaves detectionResult
unchanged; and the results step is reached exactly when a response was
successfully received and parsed. -/
theorem analyzeImage_failure_path :
    ∀ (α : Type) (s : FlowState α) (o : AnalysisOutcome α) (t : Nat),
      (o.isFailure = true →
        (analyzeImage s o t).error = some "Analysis failed. Please try again." ∧
        (analyzeImage s o t).currentStep = DetectionStep.capture ∧
        (analyzeImage s o t).detectionResult = s.detectionResult) ∧
      ((analyzeImage s o t).currentStep = DetectionStep.results ↔
        o.isFailure = false) := by
  intro α s o t
  cases o <;> simp [analyzeImage, AnalysisOutcome.isFailure]

/-- Witness for C9 at a concrete state and the concrete failing outcome
of a rejected fetch: the error message is set, the step returns to
capture and detectionResult stays none. -/
theorem analyzeImage_failure_path_witness :
    (analyzeImage (α := Unit)
        { currentStep := DetectionStep.analyzing, isAnalyzing := true,
          analysisProgress := 0, detectionResult := none, error := none }
        AnalysisOutcome.fetchReject 3).error
      = some "Analysis failed. Please try again." ∧
    (analyzeImage (α := Unit)
        { currentStep := DetectionStep.analyzing, isAnalyzing := true,
          analysisProgress := 0, detectionResult := none, error := none }
        AnalysisOutcome.fetchReject 3).currentStep = DetectionStep.capture := by
  have h := (analyzeImage_failure_path Unit
    { currentStep := DetectionStep.analyzing, isAnalyzing := true,
      analysisProgress := 0, detectionResult := none, error := none }
    AnalysisOutcome.fetchReject 3).1 rfl
  exact ⟨h.1, h.2.1⟩

/-- C10: in both DetectionFlow.analyzeImage and
CNNDetectionInterface.startAnalysis the displayed progress sequence is
non-decreasing, advances by steps of 10 when it advances, never exceeds
90 while the request is outstanding, and reaches 100 only on the run
that obtained an analysis result. -/
theorem analysis_progress_invariants :
    (∀ m n : Nat, m ≤ n → flowProgressAt m ≤ flowProgressAt n) ∧
    (∀ n : Nat, flowProgressAt (n + 1) = flowProgressAt n ∨
        flowProgressAt (n + 1) = flowProgressAt n + 10) ∧
    (∀ n : Nat, flowProgressAt n ≤ 90) ∧
    (∀ m n : Nat, m ≤ n → cnnProgressAt m ≤ cnnProgressAt n) ∧
    (∀ n : Nat, cnnProgressAt (n + 1) = cnnProgressAt n ∨
        cnnProgressAt (n + 1) = cnnProgressAt n + 10) ∧
    (∀ n : Nat, cnnProgressAt n ≤ 90) ∧
    (∀ (α : Type) (s : FlowState α) (o : AnalysisOutcome α) (t : Nat),
        (analyzeImage s o t).analysisProgress = 100 → o.isFailure = false) ∧
    (∀ (α : Type) (isOnline : Bool) (id imageId timestamp : String)
        (d : DiseaseType) (o : PredictOutcome α) (t : Nat),
        (startAnalysis isOnline id imageId timestamp d o t).analysisProgress = 100 →
        o.isSuccess = true) := by
  refine ⟨?_, ?_, ?_, ?_, ?_, ?_, ?_, ?_⟩
  · intro m n hmn
    rw [flowProgressAt_eq, flowProgressAt_eq]
    omega
  · intro n
    rw [flowProgressAt_eq, flowProgressAt_eq]
    omega
  · intro n
    rw [flowProgressAt_eq]
    omega
  · intro m n hmn
    rw [cnnProgressAt_eq, cnnProgressAt_eq]
    omega
  · intro n
    rw [cnnProgressAt_eq, cnnProgressAt_eq]
    omega
  · intro n
    rw [cnnProgressAt_eq]
    omega
  · intro α s o t h
    cases o with
    | success r => rfl
    | fetchReject =>
        exfalso
        have h90 := flowProgressAt_eq t
        simp [analyzeImage] at h
        omega
    | responseNotOk =>
        exfalso
        have h90 := flowProgressAt_eq t
        simp [analyzeImage] at h
        omega
    | parseReject =>
        exfalso
        have h90 := flowProgressAt_eq t
        simp [analyzeImage] at h
        omega
  · intro α isOnline id imageId timestamp d o t h
    cases o with
    | success r => rfl
    | failure =>
        exfalso
        have h90 := cnnProgressAt_eq t
        simp [startAnalysis] at h
        omega

/-- Witness for C10 at concrete tick counts and a concrete successful
run: progress after 3 ticks is below progress after 7 ticks, progress
after 20 ticks is still at most 90, and a run whose progress reached 100
had a successful outcome. -/
theorem analysis_progress_invariants_witness :
    flowProgressAt 3 ≤ flowProgressAt 7 ∧ cnnProgressAt 20 ≤ 90 ∧
    AnalysisOutcome.isFailure
      (AnalysisOutcome.success (α := Unit) ()) = false := by
  refine ⟨analysis_progress_invariants.1 3 7 (by omega),
    analysis_progress_invariants.2.2.2.2.2.1 20,
    analysis_progress_invariants.2.2.2.2.2.2.1 Unit
      { currentStep := DetectionStep.analyzing, isAnalyzing := true,
        analysisProgress := 0, detectionResult := none, error := none }
      (AnalysisOutcome.success ()) 0 rfl⟩
